import Mathlib

/-!
Verification development for the WBM-Compiler language pipeline
(lexer → parser → semantic analyzer → tree-walking interpreter),
shallowly embedded from the Python sources under
`compilation_service/compiler/` (`lexer.py`, `parser.py`, `ast_nodes.py`,
`semantic.py`, `interpreter.py`, `main.py`).

Modelling conventions:
* Python exceptions become values of `Err`; the `line` field is `some n`
  exactly when the Python exception message interpolates a source line
  number, and `none` when the message carries no line.
* All recursion that is not structurally decreasing in Python (parser
  descent, loops, function calls) is given an explicit fuel argument;
  running out of fuel yields `Res.fuelOut`, which corresponds to no
  behaviour of the Python program.
* Python floats are modelled as exact unnormalized rationals (`PyFloat`,
  a numerator/denominator pair with positive denominator); this is exact
  for every arithmetic fact used in the theorems below.
* `print` output is modelled as a list of printed lines; the extra lines
  written by `main.py` (the error banner and the timing footer) are the
  distinguished `OutLine` constructors.
-/

namespace WBM

/-- Kinds of Python exceptions raised by the pipeline.
`rtErr` is the lexer's `RuntimeError` (unexpected character),
`stxErr` is `SyntaxError`, `nameErr` is `NameError`, `typeErr` is
`TypeError`, `idxErr` is `IndexError`, `divZeroErr` is
`ZeroDivisionError`, `attrErr` is `AttributeError` (e.g. reading the
missing `lineno` attribute of `BinOpNode`), `niErr` is
`NotImplementedError` from `generic_visit`, and `retEsc` is the
interpreter's internal `ReturnValue` escaping to the top level. -/
inductive ErrKind where
  | rtErr | stxErr | nameErr | typeErr | idxErr | divZeroErr
  | attrErr | niErr | retEsc
deriving DecidableEq, Repr

/-- A raised Python exception; `line` records the source line number
interpolated into its message, `none` when the message has no line. -/
structure Err where
  kind : ErrKind
  line : Option Nat
deriving DecidableEq, Repr

/-- Result of a fuelled computation: fuel exhausted, a raised
exception, or a value. -/
inductive Res (α : Type) where
  | fuelOut
  | err (e : Err)
  | ok (a : α)
deriving DecidableEq, Repr

/-- A token, as the namedtuple `Token(type, value, lineno, column)` in
`lexer.py`. -/
structure Token where
  type : String
  value : String
  lineno : Nat
  column : Nat
deriving DecidableEq, Repr

/-! ### Lexer (`lexer.py`)

The Python lexer joins all `TOKEN_SPECS` patterns into one alternation
and walks the source with `finditer`.  At each position the first
pattern (in declaration order) that matches wins; each individual
pattern matches greedily.  The embedding below tries the same patterns
in the same order at the current position. -/

def isWordChar (c : Char) : Bool := c.isAlpha || c.isDigit || c = '_'

/-- Python `\s` on the ASCII inputs at hand: space, tab, newline,
carriage return, vertical tab, form feed. -/
def isWsChar (c : Char) : Bool :=
  c = ' ' || c = '\t' || c = '\n' || c = '\r' || c = '\x0b' || c = '\x0c'

def quoteChar : Char := Char.ofNat 39

def lbraceChar : Char := Char.ofNat 123

def rbraceChar : Char := Char.ofNat 125

/-- A `\b` word boundary holds before the current position (all
keyword patterns start with a word character, so the boundary holds iff
the previous character is absent or a non-word character). -/
def boundaryBefore (prev : Option Char) : Bool :=
  match prev with
  | none => true
  | some c => !isWordChar c

def startsWithL (chars kw : List Char) : Bool :=
  chars.take kw.length = kw

/-- A `\b` word boundary holds after a keyword, i.e. the remaining
input is empty or starts with a non-word character. -/
def boundaryAfter (rest : List Char) : Bool :=
  match rest with
  | [] => true
  | c :: _ => !isWordChar c

/-- The keyword patterns of `TOKEN_SPECS`, in declaration order. -/
def kwSpecs : List (String × String) :=
  [("IF", "if"), ("ELSE", "else"), ("WHILE", "while"), ("FOR", "for"),
   ("STRING", "string"), ("BOOL", "bool"), ("CHAR", "char"),
   ("FLOAT", "float"), ("INT", "int"), ("DEF", "def"),
   ("RETURN", "return"), ("PRINT", "print")]

/-- Result of trying the token patterns at one position: a token
lexeme, a discarded lexeme (whitespace/comment), or the `MISMATCH`
catch-all (an unrecognized character). -/
inductive MatchRes where
  | mtok (kind : String) (lexeme : List Char)
  | mskip (lexeme : List Char)
  | mbad
deriving Repr

def tryKeywords (prev : Option Char) (chars : List Char) : Option MatchRes :=
  if boundaryBefore prev then
    (kwSpecs.filter (fun kv =>
        startsWithL chars kv.2.toList &&
        boundaryAfter (chars.drop kv.2.length))).head?.map
      (fun kv => MatchRes.mtok kv.1 kv.2.toList)
  else none

def tryStringLit (chars : List Char) : Option MatchRes :=
  match chars with
  | '"' :: rest =>
    let body := rest.takeWhile (fun c => c ≠ '"')
    match rest.drop body.length with
    | '"' :: _ => some (.mtok "STRING_LIT" ('"' :: body ++ ['"']))
    | _ => none
  | _ => none

def tryFloatLit (chars : List Char) : Option MatchRes :=
  let d1 := chars.takeWhile Char.isDigit
  if d1.isEmpty then none
  else
    match chars.drop d1.length with
    | '.' :: r2 =>
      let d2 := r2.takeWhile Char.isDigit
      if d2.isEmpty then none
      else some (.mtok "FLOAT_LIT" (d1 ++ '.' :: d2))
    | _ => none

def tryBoolLit (prev : Option Char) (chars : List Char) : Option MatchRes :=
  if boundaryBefore prev then
    if startsWithL chars "true".toList && boundaryAfter (chars.drop 4) then
      some (.mtok "BOOL_LIT" "true".toList)
    else if startsWithL chars "false".toList && boundaryAfter (chars.drop 5) then
      some (.mtok "BOOL_LIT" "false".toList)
    else none
  else none

def tryCharLit (chars : List Char) : Option MatchRes :=
  match chars with
  | q1 :: c :: q2 :: _ =>
    if q1 = quoteChar && c ≠ quoteChar && q2 = quoteChar then
      some (.mtok "CHAR_LIT" [quoteChar, c, quoteChar])
    else none
  | _ => none

def tryNumber (chars : List Char) : Option MatchRes :=
  let d1 := chars.takeWhile Char.isDigit
  if d1.isEmpty then none else some (.mtok "NUMBER" d1)

def tryIdent (chars : List Char) : Option MatchRes :=
  match chars with
  | c :: rest =>
    if c.isAlpha || c = '_' then
      some (.mtok "ID" (c :: rest.takeWhile isWordChar))
    else none
  | [] => none

/-- The two-character operator patterns, in declaration order
(before their one-character prefixes). -/
def twoCharOps : List (String × Char × Char) :=
  [("EQ", '=', '='), ("NEQ", '!', '='), ("GTE", '>', '='), ("LTE", '<', '=')]

/-- The one-character operator/delimiter patterns, in declaration order. -/
def oneCharOps : List (String × Char) :=
  [("GT", '>'), ("LT", '<'), ("NOT", '!'), ("ASSIGN", '='), ("PLUS", '+'),
   ("MINUS", '-'), ("MUL", '*'), ("DIV", '/'), ("LBRACKET", '['),
   ("RBRACKET", ']'), ("LPAREN", '('), ("RPAREN", ')'),
   ("LBRACE", lbraceChar), ("RBRACE", rbraceChar), ("SEMI", ';'),
   ("COMMA", ',')]

def tryOps (chars : List Char) : Option MatchRes :=
  match chars with
  | c1 :: c2 :: _ =>
    match (twoCharOps.filter (fun kv => kv.2.1 = c1 && kv.2.2 = c2)).head? with
    | some kv => some (.mtok kv.1 [c1, c2])
    | none =>
      (oneCharOps.filter (fun kv => kv.2 = c1)).head?.map
        (fun kv => MatchRes.mtok kv.1 [c1])
  | [c1] =>
    (oneCharOps.filter (fun kv => kv.2 = c1)).head?.map
      (fun kv => MatchRes.mtok kv.1 [c1])
  | [] => none

/-- Try all `TOKEN_SPECS` patterns in declaration order at the current
position, exactly as the single alternation regex does. -/
def matchAt (prev : Option Char) (chars : List Char) : MatchRes :=
  match chars with
  | [] => .mbad
  | c :: rest =>
    match c, rest with
    | '/', '/' :: r2 =>
      .mskip ('/' :: '/' :: r2.takeWhile (fun x => x ≠ '\n'))
    | _, _ =>
      if isWsChar c then .mskip ((c :: rest).takeWhile isWsChar)
      else match tryKeywords prev (c :: rest) with
      | some r => r
      | none =>
      match tryStringLit (c :: rest) with
      | some r => r
      | none =>
      match tryFloatLit (c :: rest) with
      | some r => r
      | none =>
      match tryBoolLit prev (c :: rest) with
      | some r => r
      | none =>
      match tryCharLit (c :: rest) with
      | some r => r
      | none =>
      match tryNumber (c :: rest) with
      | some r => r
      | none =>
      match tryIdent (c :: rest) with
      | some r => r
      | none =>
      match tryOps (c :: rest) with
      | some r => r
      | none => .mbad

/-- The `tokenize` loop of `lexer.py`: emit tokens, skip whitespace and
comments while advancing line/column tracking, and raise a
`RuntimeError` carrying the current line on the `MISMATCH` pattern.
`idx` is the absolute position, `ln` the current line, `lineStart` the
absolute position of the current line's start. -/
def lexGo : Nat → List Char → Option Char → Nat → Nat → Nat → List Token →
    Res (List Token)
  | 0, _, _, _, _, _, _ => .fuelOut
  | fuel+1, chars, prev, idx, ln, lineStart, acc =>
    match chars with
    | [] => .ok (acc ++ [⟨"EOF", "", ln, 0⟩])
    | _ :: _ =>
      match matchAt prev chars with
      | .mtok kind lexeme =>
        let len := lexeme.length
        lexGo fuel (chars.drop len) lexeme.getLast? (idx + len) ln lineStart
          (acc ++ [⟨kind, String.mk lexeme, ln, idx - lineStart⟩])
      | .mskip lexeme =>
        let len := lexeme.length
        let nl := (lexeme.filter (fun c => c = '\n')).length
        lexGo fuel (chars.drop len) lexeme.getLast? (idx + len) (ln + nl)
          (if nl > 0 then idx + len else lineStart) acc
      | .mbad => .err ⟨.rtErr, some ln⟩

/-- `Lexer(code).tokenize()`: every step consumes at least one
character, so `length + 1` units of fuel always suffice. -/
def lexString (s : String) : Res (List Token) :=
  lexGo (s.toList.length + 1) s.toList none 0 1 0 []

/-! ### Abstract syntax tree (`ast_nodes.py`)

One constructor per node class.  `binOpN` and `unaryOpN` store the
operator token's `type` string; note that `BinOpNode`, `UnaryOpNode`,
`ProgramNode`, `BlockNode` and `ArrayTypeNode` have **no** `lineno`
attribute in the source, which `nodeLineno` records as `none`. -/

/-- The `var_type` field of `VarDeclNode`: either a plain type-keyword
string or an `ArrayTypeNode(base_type)`. -/
inductive VType where
  | primT (s : String)
  | arrT (base : String)

inductive Node where
  | programN (stmts : List Node)
  | blockN (stmts : List Node)
  | varDeclN (varType : VType) (varName : String) (value : Node) (lineno : Nat)
  | assignN (left : Node) (right : Node) (lineno : Nat)
  | printN (value : Node) (lineno : Nat)
  | ifN (cond : Node) (thenB : Node) (elseB : Option Node) (lineno : Nat)
  | whileN (cond : Node) (body : Node) (lineno : Nat)
  | forN (init : Node) (cond : Node) (update : Node) (body : Node) (lineno : Nat)
  | funcDefN (returnType : String) (funcName : String)
      (params : List (String × String)) (body : Node) (lineno : Nat)
  | returnN (value : Node) (lineno : Nat)
  | binOpN (left : Node) (opType : String) (right : Node)
  | unaryOpN (opType : String) (expr : Node)
  | funcCallN (funcName : String) (args : List Node) (lineno : Nat)
  | numN (value : String) (lineno : Nat)
  | floatN (value : String) (lineno : Nat)
  | strN (value : String) (lineno : Nat)
  | charN (value : String) (lineno : Nat)
  | boolN (value : String) (lineno : Nat)
  | varN (name : String) (lineno : Nat)
  | arrayLitN (elements : List Node) (lineno : Nat)
  | arrayAccessN (name : String) (index : Node) (lineno : Nat)

/-- Python attribute access `node.lineno`: `some` for node classes that
store a `lineno`, `none` (an `AttributeError` when accessed) for
`ProgramNode`, `BlockNode`, `BinOpNode`, `UnaryOpNode`. -/
def nodeLineno : Node → Option Nat
  | .programN _ => none
  | .blockN _ => none
  | .varDeclN _ _ _ ln => some ln
  | .assignN _ _ ln => some ln
  | .printN _ ln => some ln
  | .ifN _ _ _ ln => some ln
  | .whileN _ _ ln => some ln
  | .forN _ _ _ _ ln => some ln
  | .funcDefN _ _ _ _ ln => some ln
  | .returnN _ ln => some ln
  | .binOpN _ _ _ => none
  | .unaryOpN _ _ => none
  | .funcCallN _ _ ln => some ln
  | .numN _ ln => some ln
  | .floatN _ ln => some ln
  | .strN _ ln => some ln
  | .charN _ ln => some ln
  | .boolN _ ln => some ln
  | .varN _ ln => some ln
  | .arrayLitN _ ln => some ln
  | .arrayAccessN _ _ ln => some ln

/-! ### Parser (`parser.py`)

Recursive descent over the token list with an explicit position.  Each
embedded function returns the parsed node together with the new
position.  `eat` mismatches raise `SyntaxError` carrying the actual
token's line.  Recursion is fuelled. -/

def Res.bind {α β : Type} : Res α → (α → Res β) → Res β
  | .fuelOut, _ => .fuelOut
  | .err e, _ => .err e
  | .ok a, f => f a

instance : Monad Res where
  pure := .ok
  bind := Res.bind

/-- `current_token()` / `peek(k)`: out-of-range positions yield the
default `Token('EOF', '', 0, 0)`. -/
def tokAt (ts : List Token) (p : Nat) : Token :=
  (ts.get? p).getD ⟨"EOF", "", 0, 0⟩

/-- `eat(token_type)`: consume the expected token or raise a
`SyntaxError` naming the actual token's line. -/
def eatTok (ts : List Token) (p : Nat) (ty : String) : Res (Token × Nat) :=
  let t := tokAt ts p
  if t.type = ty then .ok (t, p + 1) else .err ⟨.stxErr, some t.lineno⟩

/-- `TYPE_KEYWORDS` in `parser.py`. -/
def typeKeywords : List String := ["INT", "FLOAT", "BOOL", "CHAR", "STRING"]

/-- A parsing request: one constructor per `Parser` method (plus its
internal `while` loops, whose accumulated left operand rides along).
Using a single fuelled function instead of mutual recursion keeps the
definition kernel-reducible. -/
inductive PReq where
  | rStmts | rStmt | rVarDecl | rAssign | rPrint | rIf | rWhile | rFor
  | rBlock | rBlockStmts | rReturn | rFuncDef | rParamsLoop
  | rExpr | rEquality | rEqLoop (acc : Node) | rComparison
  | rCompLoop (acc : Node) | rTerm | rTermLoop (acc : Node) | rFactor
  | rFactorLoop (acc : Node) | rUnary | rPrimary | rCall | rArgsLoop
  | rArrayLit | rArrayAccess

/-- The result value of a parsing request. -/
inductive PVal where
  | vNode (n : Node)
  | vNodes (l : List Node)
  | vParams (l : List (String × String))

/-- Project a single-node parse result (never fails on the requests
that return nodes; the `niErr` branch is unreachable). -/
def asNode : Res (PVal × Nat) → Res (Node × Nat)
  | .ok (.vNode n, p) => .ok (n, p)
  | .ok (_, _) => .err ⟨.niErr, none⟩
  | .err e => .err e
  | .fuelOut => .fuelOut

def asNodes : Res (PVal × Nat) → Res (List Node × Nat)
  | .ok (.vNodes l, p) => .ok (l, p)
  | .ok (_, _) => .err ⟨.niErr, none⟩
  | .err e => .err e
  | .fuelOut => .fuelOut

def asParams : Res (PVal × Nat) → Res (List (String × String) × Nat)
  | .ok (.vParams l, p) => .ok (l, p)
  | .ok (_, _) => .err ⟨.niErr, none⟩
  | .err e => .err e
  | .fuelOut => .fuelOut

/-- All `Parser` methods of `parser.py` as one fuelled function; each
`PReq` case is the like-named Python method. -/
def parseF : Nat → PReq → List Token → Nat → Res (PVal × Nat)
  | 0, _, _, _ => .fuelOut
  | fuel+1, req, ts, p =>
    match req with
    | .rStmts =>
      -- the `parse()` loop: statements until EOF
      if (tokAt ts p).type = "EOF" then .ok (.vNodes [], p)
      else do
        let (s, p1) ← asNode (parseF fuel .rStmt ts p)
        let (l, p2) ← asNodes (parseF fuel .rStmts ts p1)
        pure (.vNodes (s :: l), p2)
    | .rStmt =>
      -- parse_statement
      let t := tokAt ts p
      if typeKeywords.contains t.type then parseF fuel .rVarDecl ts p
      else if t.type = "DEF" then parseF fuel .rFuncDef ts p
      else if t.type = "PRINT" then parseF fuel .rPrint ts p
      else if t.type = "RETURN" then parseF fuel .rReturn ts p
      else if t.type = "IF" then parseF fuel .rIf ts p
      else if t.type = "WHILE" then parseF fuel .rWhile ts p
      else if t.type = "FOR" then parseF fuel .rFor ts p
      else if t.type = "ID" then
        if (tokAt ts (p+1)).type = "LPAREN" then do
          let (e, p1) ← asNode (parseF fuel .rExpr ts p)
          let (_, p2) ← eatTok ts p1 "SEMI"
          pure (.vNode e, p2)
        else if (tokAt ts (p+1)).type = "ASSIGN" ||
                (tokAt ts (p+1)).type = "LBRACKET" then
          parseF fuel .rAssign ts p
        else .err ⟨.stxErr, some t.lineno⟩
      else .err ⟨.stxErr, some t.lineno⟩
    | .rVarDecl =>
      -- parse_variable_declaration
      let typeTok := tokAt ts p
      let pa := p + 1
      do
        let (vt, p2) ←
          if (tokAt ts pa).type = "LBRACKET" then do
            let (_, q1) ← eatTok ts pa "LBRACKET"
            let (_, q2) ← eatTok ts q1 "RBRACKET"
            pure (VType.arrT typeTok.value, q2)
          else pure (VType.primT typeTok.value, pa)
        let (nameTok, p3) ← eatTok ts p2 "ID"
        let (_, p4) ← eatTok ts p3 "ASSIGN"
        let (v, p5) ← asNode (parseF fuel .rExpr ts p4)
        let (_, p6) ← eatTok ts p5 "SEMI"
        pure (.vNode (Node.varDeclN vt nameTok.value v typeTok.lineno), p6)
    | .rAssign =>
      -- parse_assignment_statement
      let ln := (tokAt ts p).lineno
      do
        let (left, p1) ←
          if (tokAt ts (p+1)).type = "LBRACKET" then
            asNode (parseF fuel .rArrayAccess ts p)
          else do
            let (t, q) ← eatTok ts p "ID"
            pure (Node.varN t.value t.lineno, q)
        let (_, p2) ← eatTok ts p1 "ASSIGN"
        let (right, p3) ← asNode (parseF fuel .rExpr ts p2)
        let (_, p4) ← eatTok ts p3 "SEMI"
        pure (.vNode (Node.assignN left right ln), p4)
    | .rPrint =>
      -- parse_print_statement
      do
        let (pt, p1) ← eatTok ts p "PRINT"
        let (_, p2) ← eatTok ts p1 "LPAREN"
        let (v, p3) ← asNode (parseF fuel .rExpr ts p2)
        let (_, p4) ← eatTok ts p3 "RPAREN"
        let (_, p5) ← eatTok ts p4 "SEMI"
        pure (.vNode (Node.printN v pt.lineno), p5)
    | .rIf =>
      -- parse_if_statement
      do
        let (it, p1) ← eatTok ts p "IF"
        let (_, p2) ← eatTok ts p1 "LPAREN"
        let (c, p3) ← asNode (parseF fuel .rExpr ts p2)
        let (_, p4) ← eatTok ts p3 "RPAREN"
        let (tb, p5) ← asNode (parseF fuel .rBlock ts p4)
        if (tokAt ts p5).type = "ELSE" then do
          let (_, p6) ← eatTok ts p5 "ELSE"
          let (eb, p7) ← asNode (parseF fuel .rBlock ts p6)
          pure (.vNode (Node.ifN c tb (some eb) it.lineno), p7)
        else pure (.vNode (Node.ifN c tb none it.lineno), p5)
    | .rWhile =>
      -- parse_while_statement
      do
        let (wt, p1) ← eatTok ts p "WHILE"
        let (_, p2) ← eatTok ts p1 "LPAREN"
        let (c, p3) ← asNode (parseF fuel .rExpr ts p2)
        let (_, p4) ← eatTok ts p3 "RPAREN"
        let (b, p5) ← asNode (parseF fuel .rBlock ts p4)
        pure (.vNode (Node.whileN c b wt.lineno), p5)
    | .rFor =>
      -- parse_for_statement
      do
        let (ft, p1) ← eatTok ts p "FOR"
        let (_, p2) ← eatTok ts p1 "LPAREN"
        let (ini, p3) ←
          if typeKeywords.contains (tokAt ts p2).type then
            asNode (parseF fuel .rVarDecl ts p2)
          else asNode (parseF fuel .rAssign ts p2)
        let (c, p4) ← asNode (parseF fuel .rExpr ts p3)
        let (_, p5) ← eatTok ts p4 "SEMI"
        let uln := (tokAt ts p5).lineno
        let (left, p6) ←
          if (tokAt ts (p5+1)).type = "LBRACKET" then
            asNode (parseF fuel .rArrayAccess ts p5)
          else do
            let (t, q) ← eatTok ts p5 "ID"
            pure (Node.varN t.value t.lineno, q)
        let (_, p7) ← eatTok ts p6 "ASSIGN"
        let (right, p8) ← asNode (parseF fuel .rExpr ts p7)
        let (_, p9) ← eatTok ts p8 "RPAREN"
        let (body, p10) ← asNode (parseF fuel .rBlock ts p9)
        pure (.vNode
          (Node.forN ini c (Node.assignN left right uln) body ft.lineno), p10)
    | .rBlock =>
      -- parse_block
      do
        let (_, p1) ← eatTok ts p "LBRACE"
        let (sts, p2) ← asNodes (parseF fuel .rBlockStmts ts p1)
        let (_, p3) ← eatTok ts p2 "RBRACE"
        pure (.vNode (Node.blockN sts), p3)
    | .rBlockStmts =>
      -- the statement loop inside parse_block (until RBRACE or EOF)
      if (tokAt ts p).type ≠ "RBRACE" && (tokAt ts p).type ≠ "EOF" then do
        let (s, p1) ← asNode (parseF fuel .rStmt ts p)
        let (l, p2) ← asNodes (parseF fuel .rBlockStmts ts p1)
        pure (.vNodes (s :: l), p2)
      else .ok (.vNodes [], p)
    | .rReturn =>
      -- parse_return_statement
      do
        let (rt, p1) ← eatTok ts p "RETURN"
        let (v, p2) ← asNode (parseF fuel .rExpr ts p1)
        let (_, p3) ← eatTok ts p2 "SEMI"
        pure (.vNode (Node.returnN v rt.lineno), p3)
    | .rFuncDef =>
      -- parse_function_definition: the return-type position and every
      -- parameter-type position are consumed with a bare advance() —
      -- no check against TYPE_KEYWORDS is performed there.
      do
        let (_, p1) ← eatTok ts p "DEF"
        let rtTok := tokAt ts p1
        let p2 := p1 + 1
        let (fnTok, p3) ← eatTok ts p2 "ID"
        let (_, p4) ← eatTok ts p3 "LPAREN"
        let (params, p5) ←
          if (tokAt ts p4).type ≠ "RPAREN" then do
            let ptv := (tokAt ts p4).value
            let p4a := p4 + 1
            let (pnTok, p4b) ← eatTok ts p4a "ID"
            let (more, p4c) ← asParams (parseF fuel .rParamsLoop ts p4b)
            pure ((ptv, pnTok.value) :: more, p4c)
          else pure (([] : List (String × String)), p4)
        let (_, p6) ← eatTok ts p5 "RPAREN"
        let (body, p7) ← asNode (parseF fuel .rBlock ts p6)
        pure (.vNode
          (Node.funcDefN rtTok.value fnTok.value params body fnTok.lineno), p7)
    | .rParamsLoop =>
      -- the parameter loop inside parse_function_definition
      if (tokAt ts p).type = "COMMA" then do
        let (_, p1) ← eatTok ts p "COMMA"
        let ptv := (tokAt ts p1).value
        let p2 := p1 + 1
        let (pnTok, p3) ← eatTok ts p2 "ID"
        let (more, p4) ← asParams (parseF fuel .rParamsLoop ts p3)
        pure (.vParams ((ptv, pnTok.value) :: more), p4)
      else .ok (.vParams [], p)
    | .rExpr => parseF fuel .rEquality ts p
    | .rEquality => do
      let (n, p1) ← asNode (parseF fuel .rComparison ts p)
      parseF fuel (.rEqLoop n) ts p1
    | .rEqLoop node =>
      let t := tokAt ts p
      if t.type = "EQ" || t.type = "NEQ" then do
        let (r, p1) ← asNode (parseF fuel .rComparison ts (p+1))
        parseF fuel (.rEqLoop (Node.binOpN node t.type r)) ts p1
      else .ok (.vNode node, p)
    | .rComparison => do
      let (n, p1) ← asNode (parseF fuel .rTerm ts p)
      parseF fuel (.rCompLoop n) ts p1
    | .rCompLoop node =>
      let t := tokAt ts p
      if t.type = "LT" || t.type = "GT" || t.type = "LTE" || t.type = "GTE" then do
        let (r, p1) ← asNode (parseF fuel .rTerm ts (p+1))
        parseF fuel (.rCompLoop (Node.binOpN node t.type r)) ts p1
      else .ok (.vNode node, p)
    | .rTerm => do
      let (n, p1) ← asNode (parseF fuel .rFactor ts p)
      parseF fuel (.rTermLoop n) ts p1
    | .rTermLoop node =>
      let t := tokAt ts p
      if t.type = "PLUS" || t.type = "MINUS" then do
        let (r, p1) ← asNode (parseF fuel .rFactor ts (p+1))
        parseF fuel (.rTermLoop (Node.binOpN node t.type r)) ts p1
      else .ok (.vNode node, p)
    | .rFactor => do
      let (n, p1) ← asNode (parseF fuel .rUnary ts p)
      parseF fuel (.rFactorLoop n) ts p1
    | .rFactorLoop node =>
      let t := tokAt ts p
      if t.type = "MUL" || t.type = "DIV" then do
        let (r, p1) ← asNode (parseF fuel .rUnary ts (p+1))
        parseF fuel (.rFactorLoop (Node.binOpN node t.type r)) ts p1
      else .ok (.vNode node, p)
    | .rUnary =>
      -- parse_unary
      let t := tokAt ts p
      if t.type = "NOT" || t.type = "MINUS" then do
        let (e, p1) ← asNode (parseF fuel .rUnary ts (p+1))
        pure (.vNode (Node.unaryOpN t.type e), p1)
      else parseF fuel .rPrimary ts p
    | .rPrimary =>
      -- parse_primary
      let t := tokAt ts p
      if t.type = "FLOAT_LIT" then .ok (.vNode (Node.floatN t.value t.lineno), p+1)
      else if t.type = "STRING_LIT" then .ok (.vNode (Node.strN t.value t.lineno), p+1)
      else if t.type = "BOOL_LIT" then .ok (.vNode (Node.boolN t.value t.lineno), p+1)
      else if t.type = "CHAR_LIT" then .ok (.vNode (Node.charN t.value t.lineno), p+1)
      else if t.type = "NUMBER" then .ok (.vNode (Node.numN t.value t.lineno), p+1)
      else if t.type = "ID" then
        if (tokAt ts (p+1)).type = "LPAREN" then parseF fuel .rCall ts p
        else if (tokAt ts (p+1)).type = "LBRACKET" then
          parseF fuel .rArrayAccess ts p
        else .ok (.vNode (Node.varN t.value t.lineno), p+1)
      else if t.type = "LPAREN" then do
        let (_, p1) ← eatTok ts p "LPAREN"
        let (e, p2) ← asNode (parseF fuel .rExpr ts p1)
        let (_, p3) ← eatTok ts p2 "RPAREN"
        pure (.vNode e, p3)
      else if t.type = "LBRACE" then parseF fuel .rArrayLit ts p
      else .err ⟨.stxErr, some t.lineno⟩
    | .rCall =>
      -- parse_function_call
      do
        let (nt, p1) ← eatTok ts p "ID"
        let (_, p2) ← eatTok ts p1 "LPAREN"
        let (args, p3) ←
          if (tokAt ts p2).type ≠ "RPAREN" then do
            let (a, q1) ← asNode (parseF fuel .rExpr ts p2)
            let (more, q2) ← asNodes (parseF fuel .rArgsLoop ts q1)
            pure (a :: more, q2)
          else pure (([] : List Node), p2)
        let (_, p4) ← eatTok ts p3 "RPAREN"
        pure (.vNode (Node.funcCallN nt.value args nt.lineno), p4)
    | .rArgsLoop =>
      -- the comma loops inside parse_function_call / parse_array_literal
      if (tokAt ts p).type = "COMMA" then do
        let (_, p1) ← eatTok ts p "COMMA"
        let (a, p2) ← asNode (parseF fuel .rExpr ts p1)
        let (more, p3) ← asNodes (parseF fuel .rArgsLoop ts p2)
        pure (.vNodes (a :: more), p3)
      else .ok (.vNodes [], p)
    | .rArrayLit =>
      -- parse_array_literal
      do
        let (lb, p1) ← eatTok ts p "LBRACE"
        let (elems, p2) ←
          if (tokAt ts p1).type ≠ "RBRACE" then do
            let (a, q1) ← asNode (parseF fuel .rExpr ts p1)
            let (more, q2) ← asNodes (parseF fuel .rArgsLoop ts q1)
            pure (a :: more, q2)
          else pure (([] : List Node), p1)
        let (_, p3) ← eatTok ts p2 "RBRACE"
        pure (.vNode (Node.arrayLitN elems lb.lineno), p3)
    | .rArrayAccess =>
      -- parse_array_access
      do
        let (nt, p1) ← eatTok ts p "ID"
        let (_, p2) ← eatTok ts p1 "LBRACKET"
        let (idx, p3) ← asNode (parseF fuel .rExpr ts p2)
        let (_, p4) ← eatTok ts p3 "RBRACKET"
        pure (.vNode (Node.arrayAccessN nt.value idx nt.lineno), p4)

/-- `Parser(tokens).parse()`: the whole token stream into a
`ProgramNode`. -/
def parseProgram (fuel : Nat) (ts : List Token) : Res Node := do
  let (sts, _) ← asNodes (parseF fuel .rStmts ts 0)
  pure (Node.programN sts)

/-- Lexing followed by parsing. -/
def parseSource (src : String) (fuel : Nat) : Res Node := do
  let toks ← lexString src
  parseProgram fuel toks

/-! ### Semantic analyzer (`semantic.py`)

Types are the strings `'int'`, `'float'`, … or `ArrayType(base)`
(`Ty.arrTy`; the base of an empty array literal is the string
`'any'`).  Symbols are `VariableSymbol(name, type)` or
`FunctionSymbol(name, return_type, params)` (whose inherited `type`
field is the string `'FUNCTION'`).  The scope chain
(`SymbolTable` + parent links) is the list of scopes, innermost
first. -/

/-- A type descriptor: a plain string type or `ArrayType(base)`
(`ArrayType.__eq__` compares base types structurally). -/
inductive Ty where
  | prim (s : String)
  | arrTy (base : Ty)
deriving DecidableEq, Repr

/-- Python `type_descriptor != 'somestring'` comparison: an `ArrayType`
never equals a string. -/
def tyEqStr : Ty → String → Bool
  | .prim p, s => p = s
  | .arrTy _, _ => false

def tyIsNumeric (t : Ty) : Bool := t = .prim "int" || t = .prim "float"

/-- A symbol-table entry. -/
inductive Symbol where
  | varSym (ty : Ty)
  | funcSym (returnType : String) (params : List (String × String))
deriving DecidableEq, Repr

/-- The analyzer's `current_function` (`FunctionSymbol` object): only
its `name` and `return_type` are consulted by `visit_ReturnNode`. -/
structure FSig where
  name : String
  returnType : String
deriving DecidableEq, Repr

/-- Analyzer state: the scope chain (innermost scope first; empty list
is the initial `current_scope = None`) and `current_function`. -/
structure ASt where
  scopes : List (List (String × Symbol))
  currentFunction : Option FSig
deriving DecidableEq, Repr

/-- `self.symbols.get(name)` within one scope. -/
def lookupA (sc : List (String × Symbol)) (name : String) : Option Symbol :=
  (sc.find? (fun kv => kv.1 = name)).map (fun kv => kv.2)

/-- `SymbolTable.resolve`: walk the parent chain. -/
def resolveS : List (List (String × Symbol)) → String → Option Symbol
  | [], _ => none
  | sc :: rest, name =>
    match lookupA sc name with
    | some s => some s
    | none => resolveS rest name

/-- An analysis request: a statement visit (returns the updated
state), an expression visit (returns a type), a statement list, or the
element loop of `visit_ArrayLiteralNode`. -/
inductive AReq where
  | aStmt (n : Node)
  | aStmts (l : List Node)
  | aExpr (n : Node)
  | aLitLoop (l : List Node) (t0 : Ty) (ln : Nat)

inductive AVal where
  | avSt (st : ASt)
  | avTy (t : Ty)

def aGetSt : Res AVal → Res ASt
  | .ok (.avSt st) => .ok st
  | .ok (.avTy _) => .err ⟨.niErr, none⟩
  | .err e => .err e
  | .fuelOut => .fuelOut

def aGetTy : Res AVal → Res Ty
  | .ok (.avTy t) => .ok t
  | .ok (.avSt _) => .err ⟨.niErr, none⟩
  | .err e => .err e
  | .fuelOut => .fuelOut

/-- All `SemanticAnalyzer` visitor methods as one fuelled function. -/
def anF : Nat → AReq → ASt → Res AVal
  | 0, _, _ => .fuelOut
  | fuel+1, req, st =>
    match req with
    | .aStmts [] => .ok (.avSt st)
    | .aStmts (s :: rest) => do
      let st1 ← aGetSt (anF fuel (.aStmt s) st)
      anF fuel (.aStmts rest) st1
    | .aLitLoop [] t0 _ => .ok (.avTy (.arrTy t0))
    | .aLitLoop (e :: rest) t0 ln => do
      let t ← aGetTy (anF fuel (.aExpr e) st)
      if t ≠ t0 then .err ⟨.typeErr, some ln⟩
      else anF fuel (.aLitLoop rest t0 ln) st
    | .aStmt n =>
      match n with
      | .programN stmts => do
        -- visit_ProgramNode: open the global scope, visit, close
        let st2 ← aGetSt (anF fuel (.aStmts stmts)
          ⟨[] :: st.scopes, st.currentFunction⟩)
        pure (.avSt ⟨st2.scopes.tail, st2.currentFunction⟩)
      | .blockN stmts => do
        let st2 ← aGetSt (anF fuel (.aStmts stmts)
          ⟨[] :: st.scopes, st.currentFunction⟩)
        pure (.avSt ⟨st2.scopes.tail, st2.currentFunction⟩)
      | .varDeclN vt name value ln => do
        -- visit_VarDeclNode
        let t ← aGetTy (anF fuel (.aExpr value) st)
        match st.scopes with
        | [] => .err ⟨.attrErr, none⟩
        | sc :: rest =>
          let checkDefine : Symbol → Res AVal := fun sym =>
            if (lookupA sc name).isSome then .err ⟨.nameErr, some ln⟩
            else .ok (.avSt ⟨(sc ++ [(name, sym)]) :: rest, st.currentFunction⟩)
          match vt with
          | .arrT base =>
            match t with
            | .arrTy b =>
              if !(tyEqStr b "any") && !(tyEqStr b base) then
                .err ⟨.typeErr, some ln⟩
              else checkDefine (.varSym (.arrTy (.prim base)))
            | .prim _ => .err ⟨.typeErr, some ln⟩
          | .primT ps =>
            if !(tyEqStr t ps) then .err ⟨.typeErr, some ln⟩
            else checkDefine (.varSym (.prim ps))
      | .assignN l r ln => do
        -- visit_AssignmentNode
        let lt ← aGetTy (anF fuel (.aExpr l) st)
        let rt ← aGetTy (anF fuel (.aExpr r) st)
        if lt ≠ rt then .err ⟨.typeErr, some ln⟩ else pure (.avSt st)
      | .ifN c tb eb ln => do
        -- visit_IfNode
        let ct ← aGetTy (anF fuel (.aExpr c) st)
        if !(tyEqStr ct "bool") then .err ⟨.typeErr, some ln⟩
        else do
          let st1 ← aGetSt (anF fuel (.aStmt tb) st)
          match eb with
          | some e => anF fuel (.aStmt e) st1
          | none => pure (.avSt st1)
      | .whileN c b ln => do
        -- visit_WhileNode
        let ct ← aGetTy (anF fuel (.aExpr c) st)
        if !(tyEqStr ct "bool") then .err ⟨.typeErr, some ln⟩
        else anF fuel (.aStmt b) st
      | .forN ini c u b ln => do
        -- visit_ForNode: its own scope; init, condition, update, body
        let st1 ← aGetSt (anF fuel (.aStmt ini)
          ⟨[] :: st.scopes, st.currentFunction⟩)
        let ct ← aGetTy (anF fuel (.aExpr c) st1)
        if !(tyEqStr ct "bool") then .err ⟨.typeErr, some ln⟩
        else do
          let st2 ← aGetSt (anF fuel (.aStmt u) st1)
          let st3 ← aGetSt (anF fuel (.aStmt b) st2)
          pure (.avSt ⟨st3.scopes.tail, st3.currentFunction⟩)
      | .printN v _ => do
        -- visit_PrintNode
        let _ ← aGetTy (anF fuel (.aExpr v) st)
        pure (.avSt st)
      | .funcDefN rt name params body _ =>
        -- visit_FuncDefNode: the result of `define` is IGNORED for the
        -- function symbol and for each parameter symbol (a duplicate is
        -- silently dropped, keeping the first binding).
        match st.scopes with
        | [] => .err ⟨.attrErr, none⟩
        | sc :: rest => do
          let sc1 :=
            if (lookupA sc name).isSome then sc
            else sc ++ [(name, Symbol.funcSym rt params)]
          let paramScope := params.foldl
            (fun acc pq =>
              if (lookupA acc pq.2).isSome then acc
              else acc ++ [(pq.2, Symbol.varSym (.prim pq.1))]) []
          let st2 ← aGetSt (anF fuel (.aStmt body)
            ⟨paramScope :: sc1 :: rest, some ⟨name, rt⟩⟩)
          pure (.avSt ⟨st2.scopes.tail, st.currentFunction⟩)
      | .returnN v ln => do
        -- visit_ReturnNode: note the type-mismatch TypeError message
        -- interpolates no line number.
        let rt ← aGetTy (anF fuel (.aExpr v) st)
        match st.currentFunction with
        | none => .err ⟨.stxErr, some ln⟩
        | some fn =>
          if !(tyEqStr rt fn.returnType) then .err ⟨.typeErr, none⟩
          else pure (.avSt st)
      | other => do
        -- an expression used in statement position (e.g. a bare call):
        -- the visitor returns its type, which the caller discards
        let _ ← aGetTy (anF fuel (.aExpr other) st)
        pure (.avSt st)
    | .aExpr n =>
      match n with
      | .binOpN l op r => do
        -- visit_BinOpNode: none of its TypeError messages carries a line
        let lt ← aGetTy (anF fuel (.aExpr l) st)
        let rt ← aGetTy (anF fuel (.aExpr r) st)
        if op = "PLUS" || op = "MINUS" || op = "MUL" || op = "DIV" then
          if !(tyIsNumeric lt) || !(tyIsNumeric rt) then .err ⟨.typeErr, none⟩
          else if lt = .prim "float" || rt = .prim "float" then
            pure (.avTy (.prim "float"))
          else pure (.avTy (.prim "int"))
        else if op = "LT" || op = "GT" || op = "LTE" || op = "GTE" then
          if !(tyIsNumeric lt) || !(tyIsNumeric rt) then .err ⟨.typeErr, none⟩
          else pure (.avTy (.prim "bool"))
        else if op = "EQ" || op = "NEQ" then
          if lt ≠ rt then .err ⟨.typeErr, none⟩
          else pure (.avTy (.prim "bool"))
        else .err ⟨.typeErr, none⟩
      | .unaryOpN op e => do
        -- visit_UnaryOpNode: its TypeError message carries no line
        let t ← aGetTy (anF fuel (.aExpr e) st)
        if op = "NOT" && t = .prim "bool" then pure (.avTy (.prim "bool"))
        else if op = "MINUS" && tyIsNumeric t then pure (.avTy t)
        else .err ⟨.typeErr, none⟩
      | .funcCallN name _ ln =>
        -- visit_FuncCallNode: resolves the callee only; the argument
        -- expressions are NOT visited and no arity/type check happens.
        match resolveS st.scopes name with
        | some (.funcSym rt _) => .ok (.avTy (.prim rt))
        | _ => .err ⟨.nameErr, some ln⟩
      | .arrayLitN [] _ => .ok (.avTy (.arrTy (.prim "any")))
      | .arrayLitN (e0 :: rest) ln => do
        let t0 ← aGetTy (anF fuel (.aExpr e0) st)
        anF fuel (.aLitLoop rest t0 ln) st
      | .arrayAccessN name idx ln =>
        -- visit_ArrayAccessNode
        match resolveS st.scopes name with
        | none => .err ⟨.nameErr, some ln⟩
        | some (.varSym (.arrTy b)) => do
          let t ← aGetTy (anF fuel (.aExpr idx) st)
          if !(tyEqStr t "int") then .err ⟨.typeErr, some ln⟩
          else pure (.avTy b)
        | some _ => .err ⟨.typeErr, some ln⟩
      | .numN _ _ => .ok (.avTy (.prim "int"))
      | .floatN _ _ => .ok (.avTy (.prim "float"))
      | .strN _ _ => .ok (.avTy (.prim "string"))
      | .charN _ _ => .ok (.avTy (.prim "char"))
      | .boolN _ _ => .ok (.avTy (.prim "bool"))
      | .varN name ln =>
        -- visit_VarNode (a FunctionSymbol's `type` is 'FUNCTION')
        match resolveS st.scopes name with
        | none => .err ⟨.nameErr, some ln⟩
        | some (.varSym t) => .ok (.avTy t)
        | some (.funcSym _ _) => .ok (.avTy (.prim "FUNCTION"))
      | _ => .err ⟨.niErr, none⟩

/-- `SemanticAnalyzer().visit(ast)` from the initial state
(`current_scope = None`, `current_function = None`). -/
def analyzeProgram (fuel : Nat) (ast : Node) : Res ASt :=
  aGetSt (anF fuel (.aStmt ast) ⟨[], none⟩)

/-! ### Interpreter (`interpreter.py`)

Runtime values mirror the Python values the interpreter manipulates:
int, float, bool, str (char literals also evaluate to one-character
Python strings), list, and `None`.  Python floats are modelled as
exact unnormalized rationals with positive denominator (`PyFloat`);
this is exact for all arithmetic appearing in the theorems below and
avoids binary floating point, which no claim depends on. -/

structure PyFloat where
  num : Int
  den : Int
deriving DecidableEq, Repr

/-- Build a float keeping the denominator positive. -/
def mkF (n d : Int) : PyFloat := if d < 0 then ⟨-n, -d⟩ else ⟨n, d⟩

def fAdd (a b : PyFloat) : PyFloat := mkF (a.num * b.den + b.num * a.den) (a.den * b.den)

def fSub (a b : PyFloat) : PyFloat := mkF (a.num * b.den - b.num * a.den) (a.den * b.den)

def fMul (a b : PyFloat) : PyFloat := mkF (a.num * b.num) (a.den * b.den)

/-- True division of rationals (Python `/` always produces a float). -/
def fDiv (a b : PyFloat) : PyFloat := mkF (a.num * b.den) (a.den * b.num)

def fNeg (a : PyFloat) : PyFloat := ⟨-a.num, a.den⟩

def fEqB (a b : PyFloat) : Bool := a.num * b.den = b.num * a.den

def fLtB (a b : PyFloat) : Bool := a.num * b.den < b.num * a.den

def fLeB (a b : PyFloat) : Bool := a.num * b.den ≤ b.num * a.den

inductive Value where
  | vInt (n : Int)
  | vFloat (q : PyFloat)
  | vBool (b : Bool)
  | vStr (s : String)
  | vArr (elems : List Value)
  | vNone

/-- Numeric view of a value: Python treats `bool` as an int in
arithmetic and comparisons. -/
inductive NumV where
  | nInt (n : Int)
  | nFloat (q : PyFloat)

def asNum : Value → Option NumV
  | .vInt n => some (.nInt n)
  | .vBool b => some (.nInt (if b then 1 else 0))
  | .vFloat q => some (.nFloat q)
  | _ => none

def toF : NumV → PyFloat
  | .nInt n => ⟨n, 1⟩
  | .nFloat q => q

/-- Python `+`: numeric addition with int/float promotion, sequence
concatenation for str/list; anything else raises `TypeError`. -/
def pyAdd (a b : Value) : Res Value :=
  match asNum a, asNum b with
  | some (.nInt m), some (.nInt n) => .ok (.vInt (m + n))
  | some x, some y => .ok (.vFloat (fAdd (toF x) (toF y)))
  | _, _ =>
    match a, b with
    | .vStr s, .vStr t => .ok (.vStr (s ++ t))
    | .vArr s, .vArr t => .ok (.vArr (s ++ t))
    | _, _ => .err ⟨.typeErr, none⟩

def pySub (a b : Value) : Res Value :=
  match asNum a, asNum b with
  | some (.nInt m), some (.nInt n) => .ok (.vInt (m - n))
  | some x, some y => .ok (.vFloat (fSub (toF x) (toF y)))
  | _, _ => .err ⟨.typeErr, none⟩

/-- Python sequence repetition `seq * n`. -/
def seqRep {α : Type} (l : List α) (n : Int) : List α :=
  (List.replicate n.toNat l).flatten

def pyMul (a b : Value) : Res Value :=
  match asNum a, asNum b with
  | some (.nInt m), some (.nInt n) => .ok (.vInt (m * n))
  | some x, some y => .ok (.vFloat (fMul (toF x) (toF y)))
  | _, _ =>
    match a, b with
    | .vStr s, .vInt n => .ok (.vStr (String.join (List.replicate n.toNat s)))
    | .vInt n, .vStr s => .ok (.vStr (String.join (List.replicate n.toNat s)))
    | .vArr s, .vInt n => .ok (.vArr (seqRep s n))
    | .vInt n, .vArr s => .ok (.vArr (seqRep s n))
    | _, _ => .err ⟨.typeErr, none⟩

/-- Python `/` (true division): the result is always a float; the
division-by-zero case is pre-checked at the call site. -/
def pyDiv (a b : Value) : Res Value :=
  match asNum a, asNum b with
  | some x, some y => .ok (.vFloat (fDiv (toF x) (toF y)))
  | _, _ => .err ⟨.typeErr, none⟩

/-- Python `==`, fuelled for nested lists (one unit of fuel per
nesting level; scalar comparisons need one unit).  Cross-kind
comparisons are `False`; numeric kinds compare by value
(`True == 1`). -/
def pyEqF : Nat → Value → Value → Bool
  | 0, _, _ => false
  | fuel+1, a, b =>
    match a, b with
    | .vArr (x :: xs), .vArr (y :: ys) =>
      pyEqF fuel x y && pyEqF fuel (.vArr xs) (.vArr ys)
    | .vArr [], .vArr [] => true
    | .vArr _, .vArr _ => false
    | .vStr s, .vStr t => s = t
    | .vNone, .vNone => true
    | x, y =>
      match asNum x, asNum y with
      | some u, some v => fEqB (toF u) (toF v)
      | _, _ => false

/-- Python `<`/`>`/`<=`/`>=` for the value kinds this language
produces: numeric/numeric and str/str; other combinations raise
`TypeError`.  (Python's list ordering is not modelled; no program in
this development compares arrays.) -/
def pyCmp (op : String) (a b : Value) : Res Value :=
  match asNum a, asNum b with
  | some x, some y =>
    let l := toF x
    let r := toF y
    if op = "LT" then .ok (.vBool (fLtB l r))
    else if op = "GT" then .ok (.vBool (fLtB r l))
    else if op = "LTE" then .ok (.vBool (fLeB l r))
    else .ok (.vBool (fLeB r l))
  | _, _ =>
    match a, b with
    | .vStr s, .vStr t =>
      if op = "LT" then .ok (.vBool (decide (s < t)))
      else if op = "GT" then .ok (.vBool (decide (t < s)))
      else if op = "LTE" then .ok (.vBool (!(decide (t < s))))
      else .ok (.vBool (!(decide (s < t))))
    | _, _ => .err ⟨.typeErr, none⟩

/-- Python unary `-`. -/
def pyNeg (a : Value) : Res Value :=
  match asNum a with
  | some (.nInt n) => .ok (.vInt (-n))
  | some (.nFloat q) => .ok (.vFloat (fNeg q))
  | none => .err ⟨.typeErr, none⟩

/-- Python truthiness, as used by `if`/`while` conditions and `not`. -/
def truthy : Value → Bool
  | .vBool b => b
  | .vInt n => !(n = 0 : Bool)
  | .vFloat q => !(q.num = 0 : Bool)
  | .vStr s => !(s = "" : Bool)
  | .vArr l => !l.isEmpty
  | .vNone => false

def digitsToNat (cs : List Char) : Nat :=
  cs.foldl (fun acc c => acc * 10 + (c.toNat - 48)) 0

/-- `int(node.value)` on a NUMBER token (a digit string). -/
def strToInt (s : String) : Int := (digitsToNat s.toList : Nat)

/-- `float(node.value)` on a FLOAT_LIT token `digits.digits`. -/
def strToFloat (s : String) : PyFloat :=
  let cs := s.toList
  let d1 := cs.takeWhile Char.isDigit
  let d2 := (cs.drop (d1.length + 1)).takeWhile Char.isDigit
  ⟨(digitsToNat d1 * 10 ^ d2.length + digitsToNat d2 : Nat), ((10 : Int) ^ d2.length)⟩

/-- `token.value[1:-1]`: strip the surrounding quotes. -/
def stripEnds (s : String) : String := String.mk (s.toList.drop 1).dropLast

/-- Decimal text of a float value: the exact terminating decimal
expansion when one exists (which equals Python's `str` on the dyadic
values arising in this development, e.g. `str(5/2) = '2.5'`), and a
fraction fallback otherwise (Python's binary shortest-roundtrip
formatting on non-terminating decimals is not modelled; no theorem
below prints such a value). -/
def floatStr (q : PyFloat) : String :=
  if q.den = 1 then toString q.num ++ ".0"
  else
    let a := q.num.natAbs
    let d := q.den.toNat
    let sign := if q.num < 0 then "-" else ""
    match (List.range 33).find? (fun k => 0 < k && (a * 10 ^ k) % d = 0) with
    | some k =>
      let scaled := a * 10 ^ k / d
      let ip := scaled / 10 ^ k
      let fp := scaled % 10 ^ k
      sign ++ toString ip ++ "." ++ (toString (10 ^ k + fp)).drop 1
    | none => toString q.num ++ "/" ++ toString q.den

/-- Python `repr`, used for list elements inside `str(list)`
(approximate in the same way as `floatStr`; unused by the theorems). -/
def reprV : Nat → Value → String
  | _, .vInt n => toString n
  | _, .vBool b => if b then "True" else "False"
  | _, .vStr s => String.mk [quoteChar] ++ s ++ String.mk [quoteChar]
  | _, .vNone => "None"
  | _, .vFloat q => floatStr q
  | 0, .vArr _ => "[...]"
  | fuel+1, .vArr l => "[" ++ ", ".intercalate (l.map (reprV fuel)) ++ "]"

/-- `str(value)`, as written by `print`. -/
def render : Value → String
  | .vInt n => toString n
  | .vBool b => if b then "True" else "False"
  | .vStr s => s
  | .vNone => "None"
  | .vFloat q => floatStr q
  | .vArr l => reprV 100 (.vArr l)

/-- A stored function: the `FuncDefNode`'s params and body, as kept by
`Environment.declare_function`. -/
structure FuncVal where
  params : List (String × String)
  body : Node

/-- One `Environment` frame: variable dict and function dict. -/
structure Frame where
  vals : List (String × Value)
  funcs : List (String × FuncVal)

def emptyFrame : Frame := ⟨[], []⟩

/-- The chain of environments, innermost first; the interpreter's root
(global) environment is the last element. -/
abbrev Frames := List Frame

def alistGet {α : Type} (l : List (String × α)) (name : String) : Option α :=
  (l.find? (fun kv => kv.1 = name)).map (fun kv => kv.2)

/-- Dict assignment: overwrite in place or append. -/
def alistSet {α : Type} : List (String × α) → String → α → List (String × α)
  | [], name, v => [(name, v)]
  | (k, w) :: rest, name, v =>
    if k = name then (k, v) :: rest else (k, w) :: alistSet rest name v

/-- `Environment.get`: walk outwards. -/
def lookupV : Frames → String → Option Value
  | [], _ => none
  | f :: rest, name =>
    match alistGet f.vals name with
    | some v => some v
    | none => lookupV rest name

/-- `Environment.get_function`: walk outwards. -/
def lookupFn : Frames → String → Option FuncVal
  | [], _ => none
  | f :: rest, name =>
    match alistGet f.funcs name with
    | some v => some v
    | none => lookupFn rest name

def frameHas (f : Frame) (name : String) : Bool := (alistGet f.vals name).isSome

/-- `Environment.declare`: bind in the current frame. -/
def frameDeclare (f : Frame) (name : String) (v : Value) : Frame :=
  ⟨alistSet f.vals name v, f.funcs⟩

def frameDeclareFunc (f : Frame) (name : String) (fv : FuncVal) : Frame :=
  ⟨f.vals, alistSet f.funcs name fv⟩

/-- `Environment.set`: rewrite the nearest frame holding the name; at
the root the write happens unconditionally (creating the binding). -/
def setV : Frames → String → Value → Frames
  | [], _, _ => []
  | [f], name, v => [frameDeclare f name v]
  | f :: rest, name, v =>
    if frameHas f name then frameDeclare f name v :: rest
    else f :: setV rest name v

/-- In-place mutation of the array object bound to `name`: overwrite
the binding in the frame where `get` found it.  (Aliasing of one list
object under several names is not modelled; no program in this
development aliases arrays.) -/
def mutateBinding : Frames → String → Value → Frames
  | [], _, _ => []
  | f :: rest, name, v =>
    if frameHas f name then frameDeclare f name v :: rest
    else f :: mutateBinding rest name v

/-- The non-local control signal: normal completion, or `ReturnValue`
unwinding with a value. -/
inductive Ctl where
  | norm
  | ret (v : Value)

/-- An interpretation request: one constructor per visitor entry point
plus the two loop bodies. -/
inductive IReq where
  | iStmt (n : Node)
  | iStmts (l : List Node)
  | iExpr (n : Node)
  | iArgs (l : List Node)
  | iWhileLoop (cond body : Node)
  | iForLoop (cond update body : Node)

inductive IVal where
  | ivC (st : Frames) (c : Ctl)
  | ivV (st : Frames) (v : Value)
  | ivL (st : Frames) (vs : List Value)

/-- Output so far paired with the outcome; output already printed is
retained when an exception aborts the run. -/
abbrev IRes := List String × Res IVal

def ibindC (r : IRes) (k : Frames → Ctl → List String → IRes) : IRes :=
  match r with
  | (out, .ok (.ivC st c)) => k st c out
  | (out, .ok _) => (out, .err ⟨.niErr, none⟩)
  | (out, .err e) => (out, .err e)
  | (out, .fuelOut) => (out, .fuelOut)

def ibindV (r : IRes) (k : Frames → Value → List String → IRes) : IRes :=
  match r with
  | (out, .ok (.ivV st v)) => k st v out
  | (out, .ok _) => (out, .err ⟨.niErr, none⟩)
  | (out, .err e) => (out, .err e)
  | (out, .fuelOut) => (out, .fuelOut)

def ibindL (r : IRes) (k : Frames → List Value → List String → IRes) : IRes :=
  match r with
  | (out, .ok (.ivL st vs)) => k st vs out
  | (out, .ok _) => (out, .err ⟨.niErr, none⟩)
  | (out, .err e) => (out, .err e)
  | (out, .fuelOut) => (out, .fuelOut)

def resToIv (st : Frames) (r : Res Value) : Res IVal :=
  match r with
  | .ok v => .ok (.ivV st v)
  | .err e => .err e
  | .fuelOut => .fuelOut

/-- All `Interpreter` visitor methods as one fuelled function. -/
def evF : Nat → IReq → Frames → List String → IRes
  | 0, _, _, out => (out, .fuelOut)
  | fuel+1, req, st, out =>
    match req with
    | .iStmts [] => (out, .ok (.ivC st .norm))
    | .iStmts (s :: rest) =>
      ibindC (evF fuel (.iStmt s) st out) (fun st1 c out1 =>
        match c with
        | .ret v => (out1, .ok (.ivC st1 (.ret v)))
        | .norm => evF fuel (.iStmts rest) st1 out1)
    | .iArgs [] => (out, .ok (.ivL st []))
    | .iArgs (a :: rest) =>
      ibindV (evF fuel (.iExpr a) st out) (fun st1 v out1 =>
        ibindL (evF fuel (.iArgs rest) st1 out1) (fun st2 vs out2 =>
          (out2, .ok (.ivL st2 (v :: vs)))))
    | .iWhileLoop c b =>
      -- visit_WhileNode's loop
      ibindV (evF fuel (.iExpr c) st out) (fun st1 cv out1 =>
        if truthy cv then
          ibindC (evF fuel (.iStmt b) st1 out1) (fun st2 ctl out2 =>
            match ctl with
            | .ret v => (out2, .ok (.ivC st2 (.ret v)))
            | .norm => evF fuel (.iWhileLoop c b) st2 out2)
        else (out1, .ok (.ivC st1 .norm)))
    | .iForLoop c u b =>
      -- visit_ForNode's loop: condition, body, update
      ibindV (evF fuel (.iExpr c) st out) (fun st1 cv out1 =>
        if truthy cv then
          ibindC (evF fuel (.iStmt b) st1 out1) (fun st2 ctl out2 =>
            match ctl with
            | .ret v => (out2, .ok (.ivC st2 (.ret v)))
            | .norm =>
              ibindC (evF fuel (.iStmt u) st2 out2) (fun st3 ctl2 out3 =>
                match ctl2 with
                | .ret v => (out3, .ok (.ivC st3 (.ret v)))
                | .norm => evF fuel (.iForLoop c u b) st3 out3))
        else (out1, .ok (.ivC st1 .norm)))
    | .iStmt n =>
      match n with
      | .programN stmts =>
        -- visit_ProgramNode: statements run directly in the given env
        evF fuel (.iStmts stmts) st out
      | .blockN stmts =>
        -- visit_BlockNode: fresh child scope, discarded afterwards
        ibindC (evF fuel (.iStmts stmts) (emptyFrame :: st) out)
          (fun st1 c out1 => (out1, .ok (.ivC st1.tail c)))
      | .varDeclN _ name value _ =>
        ibindV (evF fuel (.iExpr value) st out) (fun st1 v out1 =>
          match st1 with
          | [] => (out1, .err ⟨.attrErr, none⟩)
          | f :: rest => (out1, .ok (.ivC (frameDeclare f name v :: rest) .norm)))
      | .assignN left right ln =>
        -- visit_AssignmentNode: value first, then the target
        ibindV (evF fuel (.iExpr right) st out) (fun st1 v out1 =>
          match left with
          | .varN x _ => (out1, .ok (.ivC (setV st1 x v) .norm))
          | .arrayAccessN aname idx _ =>
            match lookupV st1 aname with
            | none => (out1, .err ⟨.nameErr, none⟩)
            | some av =>
              ibindV (evF fuel (.iExpr idx) st1 out1) (fun st2 iv out2 =>
                match av with
                | .vArr elems =>
                  match asNum iv with
                  | some (.nInt i) =>
                    if 0 ≤ i ∧ i < (elems.length : Int) then
                      (out2, .ok (.ivC
                        (mutateBinding st2 aname (.vArr (elems.set i.toNat v)))
                        .norm))
                    else (out2, .err ⟨.idxErr, some ln⟩)
                  | _ => (out2, .err ⟨.typeErr, none⟩)
                | _ => (out2, .err ⟨.typeErr, none⟩))
          | _ => (out1, .err ⟨.typeErr, none⟩))
      | .printN value _ =>
        -- visit_PrintNode: print(str(value))
        ibindV (evF fuel (.iExpr value) st out) (fun st1 v out1 =>
          (out1 ++ [render v], .ok (.ivC st1 .norm)))
      | .ifN c tb eb _ =>
        ibindV (evF fuel (.iExpr c) st out) (fun st1 cv out1 =>
          if truthy cv then evF fuel (.iStmt tb) st1 out1
          else
            match eb with
            | some e => evF fuel (.iStmt e) st1 out1
            | none => (out1, .ok (.ivC st1 .norm)))
      | .whileN c b _ => evF fuel (.iWhileLoop c b) st out
      | .forN ini c u b _ =>
        -- visit_ForNode: one fresh scope persisting across iterations
        ibindC (evF fuel (.iStmt ini) (emptyFrame :: st) out)
          (fun st1 ctl out1 =>
            match ctl with
            | .ret v => (out1, .ok (.ivC st1.tail (.ret v)))
            | .norm =>
              ibindC (evF fuel (.iForLoop c u b) st1 out1)
                (fun st2 ctl2 out2 => (out2, .ok (.ivC st2.tail ctl2))))
      | .funcDefN _ name params body _ =>
        -- visit_FuncDefNode: register in the current env's function dict
        match st with
        | [] => (out, .err ⟨.attrErr, none⟩)
        | f :: rest =>
          (out, .ok (.ivC (frameDeclareFunc f name ⟨params, body⟩ :: rest) .norm))
      | .returnN value _ =>
        ibindV (evF fuel (.iExpr value) st out) (fun st1 v out1 =>
          (out1, .ok (.ivC st1 (.ret v))))
      | other =>
        -- an expression in statement position: evaluate, discard
        ibindV (evF fuel (.iExpr other) st out) (fun st1 _ out1 =>
          (out1, .ok (.ivC st1 .norm)))
    | .iExpr n =>
      match n with
      | .binOpN l op r =>
        -- visit_BinOpNode; the DIV zero pre-check reads node.left.lineno,
        -- an AttributeError when the dividend is a BinOpNode/UnaryOpNode
        ibindV (evF fuel (.iExpr l) st out) (fun st1 lv out1 =>
          ibindV (evF fuel (.iExpr r) st1 out1) (fun st2 rv out2 =>
            if op = "PLUS" then (out2, resToIv st2 (pyAdd lv rv))
            else if op = "MINUS" then (out2, resToIv st2 (pySub lv rv))
            else if op = "MUL" then (out2, resToIv st2 (pyMul lv rv))
            else if op = "DIV" then
              if pyEqF 1 rv (.vInt 0) then
                match nodeLineno l with
                | some ln => (out2, .err ⟨.divZeroErr, some ln⟩)
                | none => (out2, .err ⟨.attrErr, none⟩)
              else (out2, resToIv st2 (pyDiv lv rv))
            else if op = "EQ" then
              (out2, .ok (.ivV st2 (.vBool (pyEqF fuel lv rv))))
            else if op = "NEQ" then
              (out2, .ok (.ivV st2 (.vBool (!pyEqF fuel lv rv))))
            else if op = "LT" || op = "GT" || op = "LTE" || op = "GTE" then
              (out2, resToIv st2 (pyCmp op lv rv))
            else (out2, .ok (.ivV st2 .vNone))))
      | .unaryOpN op e =>
        ibindV (evF fuel (.iExpr e) st out) (fun st1 v out1 =>
          if op = "NOT" then (out1, .ok (.ivV st1 (.vBool (!truthy v))))
          else if op = "MINUS" then (out1, resToIv st1 (pyNeg v))
          else (out1, .ok (.ivV st1 .vNone)))
      | .numN s _ => (out, .ok (.ivV st (.vInt (strToInt s))))
      | .floatN s _ => (out, .ok (.ivV st (.vFloat (strToFloat s))))
      | .strN s _ => (out, .ok (.ivV st (.vStr (stripEnds s))))
      | .charN s _ => (out, .ok (.ivV st (.vStr (stripEnds s))))
      | .boolN s _ => (out, .ok (.ivV st (.vBool (s = "true"))))
      | .varN name _ =>
        match lookupV st name with
        | some v => (out, .ok (.ivV st v))
        | none => (out, .err ⟨.nameErr, none⟩)
      | .arrayLitN elems _ =>
        ibindL (evF fuel (.iArgs elems) st out) (fun st1 vs out1 =>
          (out1, .ok (.ivV st1 (.vArr vs))))
      | .arrayAccessN name idx ln =>
        -- visit_ArrayAccessNode: get the array, then the index, then
        -- the bounds check citing the node's line
        match lookupV st name with
        | none => (out, .err ⟨.nameErr, none⟩)
        | some av =>
          ibindV (evF fuel (.iExpr idx) st out) (fun st1 iv out1 =>
            match av with
            | .vArr elems =>
              match asNum iv with
              | some (.nInt i) =>
                if 0 ≤ i ∧ i < (elems.length : Int) then
                  match elems.get? i.toNat with
                  | some v => (out1, .ok (.ivV st1 v))
                  | none => (out1, .err ⟨.idxErr, some ln⟩)
                else (out1, .err ⟨.idxErr, some ln⟩)
              | _ => (out1, .err ⟨.typeErr, none⟩)
            | _ => (out1, .err ⟨.typeErr, none⟩))
      | .funcCallN name args _ =>
        -- visit_FuncCallNode: resolve the function, evaluate the
        -- arguments in the caller's environment, then run the body in a
        -- fresh frame whose parent is the GLOBAL environment
        match lookupFn st name with
        | none => (out, .err ⟨.nameErr, none⟩)
        | some fv =>
          ibindL (evF fuel (.iArgs args) st out) (fun st1 vals out1 =>
            let g := st1.getLastD emptyFrame
            let callFrame := (fv.params.zip vals).foldl
              (fun acc pq => frameDeclare acc pq.1.2 pq.2) emptyFrame
            ibindC (evF fuel (.iStmt fv.body) [callFrame, g] out1)
              (fun st2 ctl out2 =>
                let stBack := st1.dropLast ++ [st2.getLastD emptyFrame]
                match ctl with
                | .ret v => (out2, .ok (.ivV stBack v))
                | .norm => (out2, .ok (.ivV stBack .vNone))))
      | _ => (out, .err ⟨.niErr, none⟩)

/-! ### Command-line entry point (`main.py`)

After reading the file, `main` runs the four stages inside one
`try`/`except Exception` block.  On success it prints the timing
footer to stdout; on any pipeline exception it prints the banner
`--- An error occurred ---` to stdout and the traceback to stderr —
and then returns normally, so the process exits with code 0 in both
cases. -/

/-- One line of the process's stdout: a `print`ed value, the error
banner, or the timing footer (whose wall-clock text is abstracted). -/
inductive OutLine where
  | printed (s : String)
  | errorBanner
  | execFinished
deriving DecidableEq, Repr

structure RunResult where
  stdout : List OutLine
  stderr : Option Err
  exitCode : Int
deriving DecidableEq, Repr

/-- Lex, parse and semantically analyze, yielding the AST handed to
the interpreter. -/
def frontend (src : String) (fuel : Nat) : Res Node :=
  match lexString src with
  | .fuelOut => .fuelOut
  | .err e => .err e
  | .ok toks =>
    match parseProgram fuel toks with
    | .fuelOut => .fuelOut
    | .err e => .err e
    | .ok ast =>
      match analyzeProgram fuel ast with
      | .fuelOut => .fuelOut
      | .err e => .err e
      | .ok _ => .ok ast

/-- The whole `main` pipeline on a source text (the file was read
successfully).  `none` means the fuel ran out, corresponding to no
behaviour of the Python program. -/
def runMain (src : String) (fuel : Nat) : Option RunResult :=
  match frontend src fuel with
  | .fuelOut => none
  | .err e => some ⟨[.errorBanner], some e, 0⟩
  | .ok ast =>
    match evF fuel (.iStmt ast) [emptyFrame] [] with
    | (_, .fuelOut) => none
    | (out, .err e) => some ⟨out.map OutLine.printed ++ [.errorBanner], some e, 0⟩
    | (out, .ok (.ivC _ .norm)) =>
      some ⟨out.map OutLine.printed ++ [.execFinished], none, 0⟩
    | (out, .ok (.ivC _ (.ret _))) =>
      some ⟨out.map OutLine.printed ++ [.errorBanner], some ⟨.retEsc, none⟩, 0⟩
    | (out, .ok _) =>
      some ⟨out.map OutLine.printed ++ [.errorBanner], some ⟨.niErr, none⟩, 0⟩

/-! ### Helper lemmas and fixtures -/

theorem Res.ok_bind {α β : Type} (a : α) (f : α → Res β) :
    ((Res.ok a : Res α) >>= f) = f a := rfl

/-- The only error site of the lexer loop interpolates the current
line into its message. -/
theorem lexGo_err_has_line : ∀ (fuel : Nat) (chars : List Char)
    (prev : Option Char) (idx ln ls : Nat) (acc : List Token) (e : Err),
    lexGo fuel chars prev idx ln ls acc = .err e → e.line.isSome := by
  intro fuel
  induction fuel with
  | zero =>
    intro chars prev idx ln ls acc e h
    simp [lexGo] at h
  | succ n ih =>
    intro chars prev idx ln ls acc e h
    unfold lexGo at h
    split at h
    · simp at h
    · split at h
      · exact ih _ _ _ _ _ _ _ h
      · exact ih _ _ _ _ _ _ _ h
      · simp only [Res.err.injEq] at h
        subst h
        rfl

/-- The binary arithmetic expression `5 / 2` (both operands `int`). -/
def intDivExpr : Node := .binOpN (.numN "5" 1) "DIV" (.numN "2" 1)

def isVInt : Value → Bool
  | .vInt _ => true
  | _ => false

/-- A global frame binding the variable `g` to `v` and holding three
functions: `f` returns the global `g`, `floc` returns the (nowhere
global) name `loc`, and `echo(int a)` returns its parameter. -/
def callGlobalFrame (v : Value) : Frame :=
  ⟨[("g", v)],
   [("f", ⟨[], .blockN [.returnN (.varN "g" 1) 1]⟩),
    ("floc", ⟨[], .blockN [.returnN (.varN "loc" 1) 1]⟩),
    ("echo", ⟨[("int", "a")], .blockN [.returnN (.varN "a" 1) 1]⟩)]⟩

/-! ### Claims -/

/-- C1: for `5 / 2` — two `int` operands — the analyzer infers the
result type `int`, but the interpreter evaluates Python's true
division `/` and produces the float `2.5`, not an int; end to end,
`print(5/2);` prints `2.5`.  The code therefore breaks the promotion
rule its own analyzer promises for division. -/
theorem c1_int_int_division_yields_float :
    anF 5 (.aExpr intDivExpr) ⟨[[]], none⟩ = .ok (.avTy (.prim "int"))
    ∧ evF 5 (.iExpr intDivExpr) [emptyFrame] []
        = ([], .ok (.ivV [emptyFrame] (.vFloat ⟨5, 2⟩)))
    ∧ isVInt (.vFloat ⟨5, 2⟩) = false
    ∧ runMain "print(5/2);" 60
        = some ⟨[.printed "2.5", .execFinished], none, 0⟩ :=
  ⟨rfl, rfl, rfl, rfl⟩

/-- C2 counterexample: `print(5/0);` fails at runtime (division by
zero, diagnostic present in stderr) yet the process exits with code 0
— `main` catches the exception, prints the banner, and returns without
calling `sys.exit`, contradicting the claimed nonzero exit. -/
theorem c2_failure_exits_zero :
    runMain "print(5/0);" 60
      = some ⟨[.errorBanner], some ⟨.divZeroErr, some 1⟩, 0⟩ := rfl

/-- C2 (amended): for every source text, the pipeline entry point
exits with code 0 whether or not a failure occurred; stderr is empty
exactly when the run succeeded (reached the timing footer), and
carries the diagnostic otherwise. -/
theorem c2_exit_code_always_zero : ∀ (src : String) (fuel : Nat) (r : RunResult),
    runMain src fuel = some r →
    r.exitCode = 0 ∧ (r.stderr = none ↔ OutLine.execFinished ∈ r.stdout) := by
  intro src fuel r h
  unfold runMain at h
  split at h
  · exact absurd h (by simp)
  · simp only [Option.some.injEq] at h
    subst h
    simp
  · split at h
    · exact absurd h (by simp)
    · simp only [Option.some.injEq] at h
      subst h
      simp [List.mem_append, List.mem_map]
    · simp only [Option.some.injEq] at h
      subst h
      simp [List.mem_append, List.mem_map]
    · simp only [Option.some.injEq] at h
      subst h
      simp [List.mem_append, List.mem_map]
    · simp only [Option.some.injEq] at h
      subst h
      simp [List.mem_append, List.mem_map]

/-- C2 witness: the amended statement evaluated on the successful run
of `int x = 5; print(x);`. -/
theorem c2_exit_code_always_zero_witness :
    (RunResult.mk [.printed "5", .execFinished] none 0).exitCode = 0
    ∧ ((RunResult.mk [.printed "5", .execFinished] none 0).stderr = none ↔
        OutLine.execFinished ∈ (RunResult.mk [.printed "5", .execFinished] none 0).stdout) :=
  c2_exit_code_always_zero "int x = 5; print(x);" 60
    ⟨[.printed "5", .execFinished], none, 0⟩ rfl

/-- C3 counterexample: `int x = 5; print(x);` exits 0 and prints `5`,
but stdout additionally contains the timing footer line that `main`
prints on success, so stdout is not exactly the line `5`. -/
theorem c3_stdout_has_timing_line :
    runMain "int x = 5; print(x);" 60
      = some ⟨[.printed "5", .execFinished], none, 0⟩
    ∧ ([OutLine.printed "5", .execFinished] : List OutLine)
        ≠ [OutLine.printed "5"] :=
  ⟨rfl, by decide⟩

/-- C3 (amended): `int x = 5; print(x);` succeeds with exit code 0 and
empty stderr; its stdout is the printed line `5` followed by the
`--- Execution finished … ---` timing footer. -/
theorem c3_prints_five_with_timing_footer :
    runMain "int x = 5; print(x);" 60
      = some ⟨[.printed "5", .execFinished], none, 0⟩ := rfl

/-- C4 counterexample: `def float f(){ return 1; }` fails with a
`TypeError` whose message interpolates no source line — the
return-type-mismatch diagnostic the claim says carries a line. -/
theorem c4_return_type_error_carries_no_line :
    runMain "def float f()\x7b return 1; \x7d" 60
      = some ⟨[.errorBanner], some ⟨.typeErr, none⟩, 0⟩
    ∧ (Err.mk .typeErr none).line = none :=
  ⟨rfl, rfl⟩

/-- C4 (amended): lexer diagnostics always carry a source line, but
not every diagnostic does: the `TypeError` for a return-expression
type mismatch, the `TypeError` for ill-typed arithmetic operands, and
the `TypeError` for an ill-typed unary operand each carry no source
line. -/
theorem c4_diagnostic_line_coverage :
    (∀ (s : String) (e : Err), lexString s = .err e → e.line.isSome)
    ∧ (∀ (fuel : Nat) (v : Node) (ln : Nat) (st : ASt) (fn : FSig) (t : Ty),
        st.currentFunction = some fn →
        anF fuel (.aExpr v) st = .ok (.avTy t) →
        tyEqStr t fn.returnType = false →
        anF (fuel+1) (.aStmt (.returnN v ln)) st = .err ⟨.typeErr, none⟩)
    ∧ (∀ (fuel : Nat) (l r : Node) (st : ASt) (lt rt : Ty),
        anF fuel (.aExpr l) st = .ok (.avTy lt) →
        anF fuel (.aExpr r) st = .ok (.avTy rt) →
        tyIsNumeric lt = false →
        anF (fuel+1) (.aExpr (.binOpN l "PLUS" r)) st = .err ⟨.typeErr, none⟩)
    ∧ (∀ (fuel : Nat) (e : Node) (st : ASt) (t : Ty),
        anF fuel (.aExpr e) st = .ok (.avTy t) →
        t ≠ Ty.prim "bool" →
        anF (fuel+1) (.aExpr (.unaryOpN "NOT" e)) st = .err ⟨.typeErr, none⟩) := by
  refine ⟨?_, ?_, ?_, ?_⟩
  · intro s e h
    exact lexGo_err_has_line _ _ _ _ _ _ _ _ h
  · intro fuel v ln st fn t h1 h2 h3
    simp [anF, h1, h2, h3, aGetTy, Res.ok_bind]
  · intro fuel l r st lt rt h1 h2 h3
    simp [anF, h1, h2, h3, aGetTy, Res.ok_bind]
  · intro fuel e st t h1 h2
    simp [anF, h1, h2, aGetTy, Res.ok_bind]

/-- C4 witness: the amended statement evaluated at concrete inputs —
the lexer error on `@` (line 1 present); the return mismatch
`return 1` against declared `float`; `true + 1`; `!1`. -/
theorem c4_diagnostic_line_coverage_witness :
    (Err.mk .rtErr (some 1)).line.isSome
    ∧ anF 6 (.aStmt (.returnN (.numN "1" 1) 1)) ⟨[[]], some ⟨"f", "float"⟩⟩
        = .err ⟨.typeErr, none⟩
    ∧ anF 6 (.aExpr (.binOpN (.boolN "true" 1) "PLUS" (.numN "1" 1))) ⟨[[]], none⟩
        = .err ⟨.typeErr, none⟩
    ∧ anF 6 (.aExpr (.unaryOpN "NOT" (.numN "1" 1))) ⟨[[]], none⟩
        = .err ⟨.typeErr, none⟩ :=
  ⟨c4_diagnostic_line_coverage.1 "@" ⟨.rtErr, some 1⟩ rfl,
   c4_diagnostic_line_coverage.2.1 5 (.numN "1" 1) 1 ⟨[[]], some ⟨"f", "float"⟩⟩
     ⟨"f", "float"⟩ (.prim "int") rfl rfl rfl,
   c4_diagnostic_line_coverage.2.2.1 5 (.boolN "true" 1) (.numN "1" 1) ⟨[[]], none⟩
     (.prim "bool") (.prim "int") rfl rfl rfl,
   c4_diagnostic_line_coverage.2.2.2 5 (.numN "1" 1) ⟨[[]], none⟩
     (.prim "int") rfl (by decide)⟩

/-- C5 counterexample: `int x = 5.0;`-style semantic failure — here
`int x = true;` — yields no print output, but stdout is not empty: it
contains the error banner `main` prints on failure. -/
theorem c5_failure_stdout_banner_nonempty :
    runMain "int x = true;" 60
      = some ⟨[.errorBanner], some ⟨.typeErr, some 1⟩, 0⟩
    ∧ ([OutLine.errorBanner] : List OutLine) ≠ [] :=
  ⟨rfl, by decide⟩

/-- C5 (amended): whenever lexing, parsing, or semantic analysis
fails, no interpretation side effect occurs and no print output is
produced: stdout consists solely of the error banner printed while
reporting the failure, and stderr carries the frontend diagnostic. -/
theorem c5_frontend_failure_no_print_output :
    ∀ (src : String) (fuel : Nat) (e : Err),
    frontend src fuel = .err e →
    runMain src fuel = some ⟨[.errorBanner], some e, 0⟩ := by
  intro src fuel e h
  simp [runMain, h]

/-- C5 witness: the amended statement evaluated on the semantically
ill-typed `int x = true;`. -/
theorem c5_frontend_failure_no_print_output_witness :
    runMain "int x = true;" 60
      = some ⟨[.errorBanner], some ⟨.typeErr, some 1⟩, 0⟩ :=
  c5_frontend_failure_no_print_output "int x = true;" 60 ⟨.typeErr, some 1⟩ rfl

/-- C6: the callee's frame chain is `[fresh frame, global frame]`,
whatever the caller's local frames hold: a body reading the global `g`
yields its global value `v` for every `v` and every caller-local
binding `w`; a body reading a name bound only in the caller's local
frame fails with `NameError`; an argument expression naming that
caller-local is evaluated in the caller's environment and its value
reaches the body through the parameter.  End to end, a caller-local
`z` shadowing a global `z` is invisible to the callee, which prints
the global value `1`. -/
theorem c6_calls_rooted_at_global_env :
    (∀ (fuel : Nat) (v w : Value) (out : List String),
      evF (fuel+5) (.iExpr (.funcCallN "f" [] 3))
          [⟨[("loc", w)], []⟩, callGlobalFrame v] out
        = (out, .ok (.ivV [⟨[("loc", w)], []⟩, callGlobalFrame v] v)))
    ∧ (∀ (fuel : Nat) (v w : Value) (out : List String),
      evF (fuel+5) (.iExpr (.funcCallN "floc" [] 3))
          [⟨[("loc", w)], []⟩, callGlobalFrame v] out
        = (out, .err ⟨.nameErr, none⟩))
    ∧ (∀ (fuel : Nat) (v w : Value) (out : List String),
      evF (fuel+6) (.iExpr (.funcCallN "echo" [.varN "loc" 3] 3))
          [⟨[("loc", w)], []⟩, callGlobalFrame v] out
        = (out, .ok (.ivV [⟨[("loc", w)], []⟩, callGlobalFrame v] w)))
    ∧ runMain
        "int z = 1; def int f()\x7b return z; \x7d if(true)\x7b int z = 5; print(f()); \x7d" 80
        = some ⟨[.printed "1", .execFinished], none, 0⟩ :=
  ⟨fun _ _ _ _ => rfl, fun _ _ _ _ => rfl, fun _ _ _ _ => rfl, rfl⟩

/-- C7 counterexample: a program with a duplicate parameter name and
a duplicate function definition passes semantic analysis and runs to
completion — no error is raised for these duplicate symbols. -/
theorem c7_duplicate_function_and_param_accepted :
    runMain "def int f(int a, int a)\x7b return 1; \x7d def int f()\x7b return 2; \x7d" 80
      = some ⟨[.execFinished], none, 0⟩ := rfl

/-- C7 (amended): a duplicate variable declaration in one scope is
rejected with a `NameError` carrying the line, but a duplicate
function definition (and likewise a duplicate parameter) is silently
accepted: `define`'s failure result is ignored, the first binding is
kept, and analysis proceeds normally. -/
theorem c7_duplicate_handling :
    (∀ (fuel : Nat) (p name : String) (value : Node) (ln : Nat)
        (sc : List (String × Symbol)) (rest : List (List (String × Symbol)))
        (cf : Option FSig) (t : Ty),
      anF fuel (.aExpr value) ⟨sc :: rest, cf⟩ = .ok (.avTy t) →
      tyEqStr t p = true →
      (lookupA sc name).isSome = true →
      anF (fuel+1) (.aStmt (.varDeclN (.primT p) name value ln)) ⟨sc :: rest, cf⟩
        = .err ⟨.nameErr, some ln⟩)
    ∧ (∀ (fuel : Nat) (rt name : String) (ln : Nat)
        (sc : List (String × Symbol)) (rest : List (List (String × Symbol)))
        (cf : Option FSig),
      (lookupA sc name).isSome = true →
      anF (fuel+3) (.aStmt (.funcDefN rt name [] (.blockN []) ln)) ⟨sc :: rest, cf⟩
        = .ok (.avSt ⟨sc :: rest, cf⟩)) := by
  constructor
  · intro fuel p name value ln sc rest cf t h1 h2 h3
    simp [anF, h1, h2, h3, aGetTy, Res.ok_bind]
  · intro fuel rt name ln sc rest cf h
    simp only [anF, h, aGetSt, Res.ok_bind]
    rfl

/-- C7 witness: in a scope already binding `x`, re-declaring the
variable `x` is rejected with `NameError` at its line, while defining
a function named `x` is silently accepted, leaving the scope
unchanged. -/
theorem c7_duplicate_handling_witness :
    anF 6 (.aStmt (.varDeclN (.primT "int") "x" (.numN "2" 1) 1))
        ⟨[[("x", .varSym (.prim "int"))]], none⟩ = .err ⟨.nameErr, some 1⟩
    ∧ anF 8 (.aStmt (.funcDefN "int" "x" [] (.blockN []) 2))
        ⟨[[("x", .varSym (.prim "int"))]], none⟩
      = .ok (.avSt ⟨[[("x", .varSym (.prim "int"))]], none⟩) :=
  ⟨c7_duplicate_handling.1 5 "int" "x" (.numN "2" 1) 1
     [("x", .varSym (.prim "int"))] [] none (.prim "int") rfl rfl rfl,
   c7_duplicate_handling.2 5 "int" "x" 2
     [("x", .varSym (.prim "int"))] [] none rfl⟩

/-- C8: dividing by a zero divisor aborts with the intended
`ZeroDivisionError` citing a line only when the dividend node has a
`lineno` attribute (e.g. a literal); for a compound dividend such as
`(1+2)/0` the interpreter's access to `node.left.lineno` raises
`AttributeError` instead (`BinOpNode` stores no `lineno`), so the run
fails without any division-by-zero diagnostic or line citation. -/
theorem c8_division_by_zero_line_citation :
    evF 9 (.iExpr (.binOpN (.binOpN (.numN "1" 1) "PLUS" (.numN "2" 1))
        "DIV" (.numN "0" 1))) [emptyFrame] []
      = ([], .err ⟨.attrErr, none⟩)
    ∧ evF 9 (.iExpr (.binOpN (.numN "5" 1) "DIV" (.numN "0" 1))) [emptyFrame] []
      = ([], .err ⟨.divZeroErr, some 1⟩)
    ∧ runMain "print((1+2)/0);" 60
      = some ⟨[.errorBanner], some ⟨.attrErr, none⟩, 0⟩ :=
  ⟨rfl, rfl, rfl⟩

/-- C9: the parser accepts any token kind in the return-type position
and in parameter-type positions of a function definition — both are
consumed with a bare `advance()` and no `SyntaxError` is raised:
`def 42 f(){ return 1; }` parses to a `FuncDefNode` with return type
`"42"`, and `def int f(42 x){ return 1; }` to one with parameter type
`"42"`. -/
theorem c9_function_def_type_positions_unchecked :
    parseSource "def 42 f()\x7b return 1; \x7d" 50
      = .ok (.programN [.funcDefN "42" "f" [] (.blockN [.returnN (.numN "1" 1) 1]) 1])
    ∧ parseSource "def int f(42 x)\x7b return 1; \x7d" 50
      = .ok (.programN
          [.funcDefN "int" "f" [("42", "x")] (.blockN [.returnN (.numN "1" 1) 1]) 1]) :=
  ⟨rfl, rfl⟩

/-- C10: when the callee resolves to a function symbol, the analyzer
accepts the call and returns the declared return type for every
argument list whatsoever — the arguments are never visited, so wrong
arity, wrong types, and undeclared names inside arguments all pass
analysis; such a fault then surfaces only at runtime, as the end-to-end
run with an undeclared argument name shows (a runtime `NameError`
after analysis succeeded). -/
theorem c10_call_arguments_not_analyzed :
    (∀ (fuel : Nat) (name : String) (args : List Node) (ln : Nat)
        (scopes : List (List (String × Symbol))) (cf : Option FSig)
        (rt : String) (ps : List (String × String)),
      resolveS scopes name = some (.funcSym rt ps) →
      anF (fuel+1) (.aExpr (.funcCallN name args ln)) ⟨scopes, cf⟩
        = .ok (.avTy (.prim rt)))
    ∧ runMain "def int f(int a)\x7b return a; \x7d int y = f(1, 2, zzz);" 80
        = some ⟨[.errorBanner], some ⟨.nameErr, none⟩, 0⟩ := by
  constructor
  · intro fuel name args ln scopes cf rt ps h
    simp [anF, h]
  · rfl

/-- C10 witness: a call with wrong arity and an undeclared name in
its arguments is accepted by the analyzer with the declared return
type. -/
theorem c10_call_arguments_not_analyzed_witness :
    anF 6 (.aExpr (.funcCallN "f" [.varN "zzz" 1, .numN "7" 1, .numN "8" 1] 1))
        ⟨[[("f", .funcSym "int" [("int", "a")])]], none⟩
      = .ok (.avTy (.prim "int")) :=
  c10_call_arguments_not_analyzed.1 5 "f" [.varN "zzz" 1, .numN "7" 1, .numN "8" 1]
    1 [[("f", .funcSym "int" [("int", "a")])]] none "int" [("int", "a")] rfl

end WBM
